import Mathlib

/-!
Shallow embedding of the Codemni ToolCallAgent repository.

Two implementations of the agent live in the repository:
* the live package `src/agent/ToolCall_Agent/agent.py` (functions
  `parse_agent_response`, `execute_tool`, class `ToolCallAgent`), and
* the configurable architecture in `$RECYCLE.BIN/.../$RCLGMJ2`
  (`response_parser.py`, `tool_executor.py`, `base_agent.py`,
  `flexible_agent.py`, `agent_config.py`).

Python JSON-ish runtime values are modelled by `Value`; tool functions are
modelled as functions from a call shape (positional or keyword arguments) to
`Except String Value`, where `.error msg` models a raised exception carrying
message `msg` and `.ok v` models a normal return of `v`.  The external
collaborators (the `json.loads` decoder and the regex block extraction, and
the LLM itself) are passed in as function parameters, mirroring the spec's
"external collaborator" treatment.
-/

namespace Codemni

/-- Python runtime value as it appears in this code base: JSON values plus
Python sets (set literals such as `{"2,3"}` can reach the binder).  A `dict`
and a `set` keep insertion order, as CPython dicts do. -/
inductive Value where
  | null
  | bool (b : Bool)
  | num (n : Int)
  | str (s : String)
  | list (elems : List Value)
  | dict (entries : List (String × Value))
  | set (elems : List Value)

/-- Python truthiness (`bool(v)`) for the values above. -/
def truthy : Value → Bool
  | .null => false
  | .bool b => b
  | .num n => n != 0
  | .str s => !s.isEmpty
  | .list es => !es.isEmpty
  | .dict es => !es.isEmpty
  | .set es => !es.isEmpty

/-- Python `v == "None"`: only the string `"None"` compares equal to it. -/
def isNoneStr : Value → Bool
  | .str s => s == "None"
  | _ => false

/-- Python `v is None`. -/
def isNull : Value → Bool
  | .null => true
  | _ => false

mutual

/-- Python `repr` for the modelled values (used by `str` on containers). -/
def pyRepr : Value → String
  | .null => "None"
  | .bool b => if b then "True" else "False"
  | .num n => toString n
  | .str s => "\x27" ++ s ++ "\x27"
  | .list es => "[" ++ pyReprJoin es ++ "]"
  | .set es => "\x7b" ++ pyReprJoin es ++ "\x7d"
  | .dict es => "\x7b" ++ pyReprPairs es ++ "\x7d"

/-- Comma-joined `repr`s of list elements. -/
def pyReprJoin : List Value → String
  | [] => ""
  | [v] => pyRepr v
  | v :: rest => pyRepr v ++ ", " ++ pyReprJoin rest

/-- Comma-joined `repr`s of dict entries. -/
def pyReprPairs : List (String × Value) → String
  | [] => ""
  | [(k, v)] => "\x27" ++ k ++ "\x27: " ++ pyRepr v
  | (k, v) :: rest => "\x27" ++ k ++ "\x27: " ++ pyRepr v ++ ", " ++ pyReprPairs rest

end

/-- Python `str(v)`: strings are rendered verbatim, everything else as `repr`. -/
def pyStr : Value → String
  | .str s => s
  | v => pyRepr v

/-- Python `str.strip()` on the character list: drop whitespace from both
ends. -/
def pyStripChars (l : List Char) : List Char :=
  (((l.dropWhile Char.isWhitespace).reverse.dropWhile Char.isWhitespace).reverse)

/-- Python `str.strip()`. -/
def pyStrip (s : String) : String :=
  ⟨pyStripChars s.data⟩

/-- Python `str.split(sep)` for a one-character separator, accumulator-based
over the character list (`"".split` gives `[""]`, adjacent separators give
empty segments, as in Python). -/
def splitSepAux (sep : Char) : List Char → List Char → List (List Char)
  | [], acc => [acc.reverse]
  | c :: rest, acc =>
    if c = sep then acc.reverse :: splitSepAux sep rest []
    else splitSepAux sep rest (c :: acc)

/-- Python `s.split(a comma)`. -/
def pySplitComma (s : String) : List String :=
  (splitSepAux (',') s.data []).map (fun l => ⟨l⟩)

/-- `[p.strip() for p in str(param_string).split(a comma)]` turned into the
positional-argument list handed to the tool function. -/
def splitCommaStrip (s : String) : List Value :=
  (pySplitComma s).map (fun p => Value.str (pyStrip p))

/-- Python `any(c.isalpha() for c in s)`. -/
def pyAnyAlpha (s : String) : Bool :=
  s.data.any (fun c => c.isAlpha)

/-- Fuel-driven core of Python `str.replace`: replaces every non-overlapping
occurrence of `pat` left to right.  The fuel is the length of the scanned
list, enough to reach its end for a non-empty `pat`. -/
def replaceAux (pat repl : List Char) : Nat → List Char → List Char
  | _, [] => []
  | 0, l => l
  | fuel + 1, c :: rest =>
    if pat.isPrefixOf (c :: rest) then
      repl ++ replaceAux pat repl fuel ((c :: rest).drop pat.length)
    else
      c :: replaceAux pat repl fuel rest

/-- Python `s.replace(pat, repl)` (for the non-empty literal patterns used by
the prompt compilers). -/
def pyReplace (s pat repl : String) : String :=
  ⟨replaceAux pat.data repl.data s.data.length s.data⟩

/-- Shape of one Python call to a tool function: `f(*args)` or `f(**kwargs)`. -/
inductive Call where
  | positional (args : List Value)
  | keyword (args : List (String × Value))

/-- A tool function: receives a call shape, either returns a value or raises
an exception whose message is the `String`. -/
def ToolFn : Type := Call → Except String Value

/-- Python-dict lookup in an association list (first matching key). -/
def dictGet? {α : Type} (d : List (String × α)) (k : String) : Option α :=
  (d.find? (fun p => p.1 == k)).map (fun p => p.2)

/-- Python-dict `d.get(k, default)`. -/
def dictGetD {α : Type} (d : List (String × α)) (k : String) (v : α) : α :=
  (dictGet? d k).getD v

/-- Python-dict assignment `d[k] = v`: replaces in place if the key exists
(keeping its position), otherwise appends. -/
def dictSet {α : Type} (d : List (String × α)) (k : String) (v : α) :
    List (String × α) :=
  if d.any (fun p => p.1 == k) then
    d.map (fun p => if p.1 == k then (k, v) else p)
  else
    d ++ [(k, v)]

/-- Python-dict `del d[k]`. -/
def dictDel {α : Type} (d : List (String × α)) (k : String) :
    List (String × α) :=
  d.filter (fun p => !(p.1 == k))

/-- Entry of the live agent's tool registry (`agent.py`, `add_tool`). -/
structure ToolInfo where
  description : String
  function : ToolFn

/-- `tool_name not in available_tools` / `available_tools[tool_name]`, with
the parsed tool name being an arbitrary runtime value: only a string can
match a registry key. -/
def toolLookup (tools : List (String × ToolInfo)) (name : Value) :
    Option ToolInfo :=
  match name with
  | .str s => dictGet? tools s
  | _ => none

/-- The message `f"Error: Tool \x27{tool_name}\x27 not found"` (both binders
use the identical f-string). -/
def toolNotFoundMsg (tool_name : Value) : String :=
  let tn := pyStr tool_name
  s!"Error: Tool \x27{tn}\x27 not found"

/-- The message `f"Error executing tool \x27{tool_name}\x27: {str(e)}"`. -/
def toolErrorMsg (tool_name : Value) (e : String) : String :=
  let tn := pyStr tool_name
  s!"Error executing tool \x27{tn}\x27: {e}"

/-- The parameter dispatch inside the `try` block of `execute_tool`
(`agent.py` lines 86-109), applied to the (already JSON-decoded, non-falsy,
non-"None") parameters value.  `.error` is an exception escaping to the
`except` clause; note that a Python `list` or scalar falls into the final
`else` and yields the literal "Unexpected parameter type" message. -/
def dispatchParams (f : ToolFn) (tp : Value) : Except String Value :=
  match tp with
  | .dict [] => f (.positional [])
  | .dict ((k, v) :: rest) =>
    if !k.isEmpty && pyAnyAlpha k then
      f (.keyword ((k, v) :: rest))
    else
      let param_string := if truthy v then v else Value.str k
      f (.positional (splitCommaStrip (pyStr param_string)))
  | .set [] => .error ("list index out of range")
  | .set (e :: _) => f (.positional (splitCommaStrip (pyStr e)))
  | _ => .ok (.str ("Error: Unexpected parameter type"))

/-- `execute_tool(tool_name, tool_parameters, available_tools)` from the live
`agent.py`.  `jsonLoads` models the external `json.loads` (with `none` for a
`JSONDecodeError`).  The overall `.error` case is an exception that escapes
`execute_tool` uncaught — which can only happen on the zero-argument path,
the single call placed before the `try` block. -/
def execute_tool (jsonLoads : String → Option Value) (tool_name : Value)
    (tool_parameters : Value) (available_tools : List (String × ToolInfo)) :
    Except String Value :=
  match toolLookup available_tools tool_name with
  | none => .ok (.str (toolNotFoundMsg tool_name))
  | some info =>
    if !truthy tool_parameters || isNoneStr tool_parameters then
      info.function (.positional [])
    else
      let runDispatch : Value → Except String Value := fun tp =>
        match dispatchParams info.function tp with
        | .ok v => .ok v
        | .error e => .ok (.str (toolErrorMsg tool_name e))
      match tool_parameters with
      | .str s =>
        match jsonLoads s with
        | none => .ok (.str ("Error: Invalid parameter format"))
        | some v => runDispatch v
      | v => runDispatch v

/-! ### ToolExecutor (`$RCLGMJ2/tool_executor.py`) -/

/-- Registry entry created by `ToolExecutor.register_tool`. -/
structure ExecutorTool where
  description : String
  function : ToolFn
  parameter_schema : Option Value

/-- `ToolExecutor`: its only state is the `tools` dict. -/
structure ToolExecutor where
  tools : List (String × ExecutorTool)

/-- `ToolExecutor.register_tool(name, description, function, parameter_schema)`:
a plain dict assignment. -/
def registerTool (ex : ToolExecutor) (name description : String) (function : ToolFn)
    (parameter_schema : Option Value) : ToolExecutor :=
  ⟨dictSet ex.tools name ⟨description, function, parameter_schema⟩⟩

/-- `ToolExecutor.unregister_tool(name)`: returns the new state and whether a
tool was removed. -/
def unregisterTool (ex : ToolExecutor) (name : String) : ToolExecutor × Bool :=
  if (dictGet? ex.tools name).isSome then
    (⟨dictDel ex.tools name⟩, true)
  else
    (ex, false)

/-- `ToolExecutor.get_tools_description()`. -/
def getToolsDescription (ex : ToolExecutor) : String :=
  String.intercalate "\n" (ex.tools.map (fun p =>
    let n := p.1
    let d := p.2.description
    s!"- {n}: {d}"))

/-- Lookup with a runtime-value name, as in `toolLookup`. -/
def executorLookup (ex : ToolExecutor) (name : Value) : Option ExecutorTool :=
  match name with
  | .str s => dictGet? ex.tools s
  | _ => none

/-- `ToolExecutor._execute_with_params(tool_function, tool_parameters, ...)`:
unlike the live agent's dispatch it has branches for lists (positional, one
argument per element) and for any other scalar (sole positional argument);
every result goes through `str(...)`.  `.error` models an exception escaping
to the `except` clause of `execute`. -/
def executeWithParams (f : ToolFn) (tp : Value) : Except String String :=
  match tp with
  | .dict [] => (f (.positional [])).map pyStr
  | .dict ((k, v) :: rest) =>
    if !k.isEmpty && pyAnyAlpha k then
      (f (.keyword ((k, v) :: rest))).map pyStr
    else
      let param_string := if truthy v then v else Value.str k
      (f (.positional (splitCommaStrip (pyStr param_string)))).map pyStr
  | .set [] => .error ("list index out of range")
  | .set (e :: _) => (f (.positional (splitCommaStrip (pyStr e)))).map pyStr
  | .list es => (f (.positional es)).map pyStr
  | v => (f (.positional [v])).map pyStr

/-- `ToolExecutor.execute(tool_name, tool_parameters)`: every call path,
including the zero-argument one, is wrapped in `try/except`, so the result is
always a plain string. -/
def executorExecute (jsonLoads : String → Option Value) (ex : ToolExecutor)
    (tool_name : Value) (tool_parameters : Value) : String :=
  match executorLookup ex tool_name with
  | none => toolNotFoundMsg tool_name
  | some t =>
    if !truthy tool_parameters || isNoneStr tool_parameters then
      match t.function (.positional []) with
      | .ok v => pyStr v
      | .error e => toolErrorMsg tool_name e
    else
      let runWith : Value → String := fun v =>
        match executeWithParams t.function v with
        | .ok r => r
        | .error e => toolErrorMsg tool_name e
      match tool_parameters with
      | .str s =>
        match jsonLoads s with
        | none => "Error: Invalid parameter format"
        | some v => runWith v
      | v => runWith v

/-- What `ToolExecutor.execute` observably does once a call shape has been
chosen for a resolved tool: perform the call, stringify a normal return, and
turn an exception into the tool-error text. -/
def renderCall (tool_name : Value) (f : ToolFn) (c : Call) : String :=
  match f c with
  | .ok v => pyStr v
  | .error e => toolErrorMsg tool_name e

/-! ### Response parsing

The regex block extraction (` ```json ... ``` `) composed with `json.loads`
is modelled as one external `decode` function returning either the decoded
top-level JSON object or the message of the raised exception. -/

/-- `parse_agent_response(response)` from the live `agent.py`: no validation;
each of the three fields defaults to the string `"None"` when absent.  The
result triple is (tool call, tool parameters, final response). -/
def parse_agent_response (decode : String → Except String (List (String × Value)))
    (response : String) : Except String (Value × Value × Value) :=
  match decode response with
  | .error e => .error e
  | .ok parsed_json =>
    .ok (dictGetD parsed_json ("Tool call") (.str ("None")),
         dictGetD parsed_json ("Tool Parameters") (.str ("None")),
         dictGetD parsed_json ("Final Response") (.str ("None")))

/-- Python `str` applied to a list of strings, as in the f-string
`f"Missing required keys: {missing_keys}"`. -/
def pyStrListRepr (xs : List String) : String :=
  "[" ++ String.intercalate ", " (xs.map (fun s => "\x27" ++ s ++ "\x27")) ++ "]"

/-- The `ValueError` message `f"Missing required keys: {missing_keys}"`. -/
def missingKeysMsg (missing_keys : List String) : String :=
  "Missing required keys: " ++ pyStrListRepr missing_keys

/-- `ResponseParser.parse_json_response(response, required_keys)` from
`$RCLGMJ2/response_parser.py`: decodes the block, then (when `required_keys`
is non-empty) raises `ValueError` listing every absent required key. -/
def parse_json_response (decode : String → Except String (List (String × Value)))
    (response : String) (required_keys : List String) :
    Except String (List (String × Value)) :=
  match decode response with
  | .error e => .error e
  | .ok parsed_json =>
    let missing_keys := required_keys.filter
      (fun k => !(parsed_json.any (fun p => p.1 == k)))
    if !required_keys.isEmpty && !missing_keys.isEmpty then
      .error (missingKeysMsg missing_keys)
    else
      .ok parsed_json

/-- `ResponseFormat` from `$RCLGMJ2/agent_config.py`. -/
structure ResponseFormat where
  required_keys : List String
  key_mapping : List (String × String)
  defaults : List (String × Value)

/-- `ResponseFormat.get_json_key(internal_name)`. -/
def getJsonKey (rf : ResponseFormat) (internal_name : String) : String :=
  dictGetD rf.key_mapping internal_name internal_name

/-- `FlexibleAgent._parse_response(response)`: validated parse followed by
standardization onto the internal keys tool/params/response/reasoning,
keeping only roles whose mapped JSON key is present. -/
def flexibleParseResponse (decode : String → Except String (List (String × Value)))
    (rf : ResponseFormat) (response : String) :
    Except String (List (String × Value)) :=
  match parse_json_response decode response rf.required_keys with
  | .error e => .error e
  | .ok parsed =>
    .ok ((["tool", "params", "response", "reasoning"]).filterMap
      (fun internal_key =>
        (dictGet? parsed (getJsonKey rf internal_key)).map
          (fun v => (internal_key, v))))

/-! ### The live agent loop (`agent.py`, `ToolCallAgent.invoke`) -/

/-- `f"{prompt}\n{scratchpad}" if scratchpad else prompt` (both loops use the
same shape). -/
def fullPromptOf (prompt scratchpad : String) : String :=
  if !scratchpad.isEmpty then prompt ++ ("\n" ++ scratchpad) else prompt

/-- The message `"Error parsing response: " + str(e)` returned by both loops
when the parse step raises. -/
def parseErrorMsg (e : String) : String :=
  "Error parsing response: " ++ e

/-- The budget message of the live agent (`agent.py` line 316). -/
def maxIterAgentMsg : String :=
  "Error: Maximum iterations reached"

/-- The budget message of the flexible agent,
`f"Error: Maximum iterations ({max_iterations}) reached"`. -/
def maxIterationsMsg (n : Nat) : String :=
  "Error: Maximum iterations (" ++ (toString n ++ ") reached")

/-- The transcript entry appended to the live agent's scratchpad after a
tool turn. -/
def agentScratchEntry (tool_call tool_result : Value) : String :=
  let tn := pyStr tool_call
  let tr := pyStr tool_result
  s!"\n\n--- Previous Tool Call ---\nTool Used: {tn}\nResult: {tr}\n\nNow provide the final response to the user based on this result."

/-- The transcript entry appended to the flexible agent's scratchpad after a
tool turn. -/
def flexScratchEntry (tool_name : Value) (tool_result : String) : String :=
  let tn := pyStr tool_name
  s!"\n\n--- Tool Execution ---\nTool: {tn}\nResult: {tool_result}\n\nProvide the final response based on this result."

/-- Observable outcome of one `ToolCallAgent.invoke` call: the returned value,
the number of model round-trips performed, and each binder call made
(tool-name value paired with the value `execute_tool` produced). -/
structure AgentRun where
  result : Value
  llmCalls : Nat
  toolRuns : List (Value × Value)

/-- The `while iteration < max_iterations` loop of `ToolCallAgent.invoke`,
by recursion on the remaining iterations (`fuel = max_iterations - iteration`).
The overall `.error` case is an exception propagating uncaught out of
`invoke` (only `execute_tool`'s zero-argument path can raise one; the parse
step is wrapped in `try/except`). -/
def agentLoop (llm : String → String)
    (decode : String → Except String (List (String × Value)))
    (jsonLoads : String → Option Value) (tools : List (String × ToolInfo))
    (prompt : String) (scratchpad : String) (calls : Nat)
    (runs : List (Value × Value)) : Nat → Except String AgentRun
  | 0 => .ok ⟨.str maxIterAgentMsg, calls, runs⟩
  | fuel + 1 =>
    let response := llm (fullPromptOf prompt scratchpad)
    match parse_agent_response decode response with
    | .error e => .ok ⟨.str (parseErrorMsg e), calls + 1, runs⟩
    | .ok (tool_call, tool_params, final_response) =>
      if isNoneStr tool_call || !truthy tool_call then
        .ok ⟨final_response, calls + 1, runs⟩
      else
        match execute_tool jsonLoads tool_call tool_params tools with
        | .error e => .error e
        | .ok tool_result =>
          let scratchpad2 := scratchpad ++ agentScratchEntry tool_call tool_result
          agentLoop llm decode jsonLoads tools prompt scratchpad2 (calls + 1)
            (runs ++ [(tool_call, tool_result)]) fuel

/-- State of a `ToolCallAgent` instance relevant to the loop: the prompt
template, the tools dict, and the compiled-prompt cache. -/
structure ToolCallAgentState where
  prompt_template : String
  tools : List (String × ToolInfo)
  compiled_prompt : Option String

/-- `ToolCallAgent.add_tool(name, description, function)`: a plain dict
assignment; note it does not touch `compiled_prompt`. -/
def agentAddTool (a : ToolCallAgentState) (name description : String)
    (function : ToolFn) : ToolCallAgentState :=
  { a with tools := dictSet a.tools name ⟨description, function⟩ }

/-- The text `ToolCallAgent._compile_prompt` produces from a template and a
tools dict. -/
def agentCompileText (template : String) (tools : List (String × ToolInfo)) :
    String :=
  let tool_list := String.intercalate "\n" (tools.map (fun p =>
    let n := p.1
    let d := p.2.description
    s!"        - {n}: {d}"))
  pyReplace template ("{tool_list}") tool_list

/-- `ToolCallAgent._compile_prompt()`: stores the compiled text in the cache. -/
def agentCompilePrompt (a : ToolCallAgentState) : ToolCallAgentState :=
  { a with compiled_prompt := some (agentCompileText a.prompt_template a.tools) }

/-- `ToolCallAgent.invoke(query)`: configuration check, lazy compile, then the
loop with the hard-coded `max_iterations = 10`. -/
def agentInvoke (llm : String → String)
    (decode : String → Except String (List (String × Value)))
    (jsonLoads : String → Option Value) (a : ToolCallAgentState)
    (query : String) : Except String AgentRun :=
  if a.tools.isEmpty then
    .error ("No tools added. Call add_tool() at least once")
  else
    let a1 := if a.compiled_prompt.isNone then agentCompilePrompt a else a
    let prompt := pyReplace (a1.compiled_prompt.getD "") ("{user_input}") query
    agentLoop llm decode jsonLoads a1.tools prompt "" 0 [] 10

/-! ### The flexible agent loop (`$RCLGMJ2/flexible_agent.py`, `base_agent.py`) -/

/-- Observable outcome of one `FlexibleAgent.invoke` call. -/
structure FlexRun where
  result : Value
  llmCalls : Nat
  toolRuns : List (Value × String)

/-- The main loop of `FlexibleAgent.invoke`.  No exception can escape it:
parsing is wrapped in `try/except` and `ToolExecutor.execute` catches every
tool exception. -/
def flexibleLoop (llm : String → String)
    (decode : String → Except String (List (String × Value)))
    (jsonLoads : String → Option Value) (rf : ResponseFormat)
    (ex : ToolExecutor) (maxIter : Nat) (prompt_text : String)
    (scratchpad : String) (calls : Nat) (runs : List (Value × String)) :
    Nat → FlexRun
  | 0 => ⟨.str (maxIterationsMsg maxIter), calls, runs⟩
  | fuel + 1 =>
    let response := llm (fullPromptOf prompt_text scratchpad)
    match flexibleParseResponse decode rf response with
    | .error e => ⟨.str (parseErrorMsg e), calls + 1, runs⟩
    | .ok parsed =>
      let tool_name := dictGetD parsed ("tool") (.str ("None"))
      let params := dictGetD parsed ("params") (.str ("None"))
      let final_answer := dictGetD parsed ("response") (.str ("None"))
      if isNoneStr tool_name || isNull tool_name || !truthy tool_name then
        ⟨if truthy final_answer && !isNoneStr final_answer then final_answer
          else .str ("No response provided"), calls + 1, runs⟩
      else
        let tool_result := executorExecute jsonLoads ex tool_name params
        let scratchpad2 := scratchpad ++ flexScratchEntry tool_name tool_result
        flexibleLoop llm decode jsonLoads rf ex maxIter prompt_text scratchpad2
          (calls + 1) (runs ++ [(tool_name, tool_result)]) fuel

/-- State of a `FlexibleAgent` instance: the `AgentConfig` fields the loop
reads, plus the `BaseAgent` state (tool executor and compiled-prompt cache). -/
structure FlexibleAgentState where
  prompt_template : String
  special_instructions : String
  examples : List String
  response_format : ResponseFormat
  max_iterations : Nat
  tool_executor : ToolExecutor
  compiled_prompt : Option String

/-- `BaseAgent.add_tool`: registers the tool and resets the compiled-prompt
cache. -/
def flexAddTool (s : FlexibleAgentState) (name description : String)
    (function : ToolFn) (schema : Option Value) : FlexibleAgentState :=
  { s with tool_executor := registerTool s.tool_executor name description function schema,
           compiled_prompt := none }

/-- `BaseAgent.remove_tool`: unregisters and resets the cache only when a tool
was actually removed. -/
def flexRemoveTool (s : FlexibleAgentState) (name : String) :
    FlexibleAgentState × Bool :=
  let r := unregisterTool s.tool_executor name
  if r.2 then
    ({ s with tool_executor := r.1, compiled_prompt := none }, true)
  else
    ({ s with tool_executor := r.1 }, false)

/-- `FlexibleAgent._compile_prompt()`: tool list substitution, then special
instructions, then examples, in that order. -/
def flexibleCompileText (s : FlexibleAgentState) : String :=
  let tool_list := getToolsDescription s.tool_executor
  let compiled := pyReplace s.prompt_template ("{tool_list}") tool_list
  let compiled := if !s.special_instructions.isEmpty then
      let si := s.special_instructions
      s!"{compiled}\n\n{si}"
    else compiled
  if !s.examples.isEmpty then
    compiled ++ ("\n\nExamples:\n" ++ String.intercalate "\n" s.examples)
  else compiled

/-- The lazy-compile step at the top of `FlexibleAgent.invoke`. -/
def flexEnsureCompiled (s : FlexibleAgentState) : FlexibleAgentState :=
  if s.compiled_prompt.isNone then
    { s with compiled_prompt := some (flexibleCompileText s) }
  else s

/-- `FlexibleAgent.invoke(query, max_iterations)`: setup validation (a
failing validation raises `ValueError`, modelled as `.error`), lazy compile,
then the loop. -/
def flexibleInvoke (llm : String → String)
    (decode : String → Except String (List (String × Value)))
    (jsonLoads : String → Option Value) (s : FlexibleAgentState)
    (maxIterations : Nat) (query : String) : Except String FlexRun :=
  if s.tool_executor.tools.isEmpty then
    .error ("No tools added. Call add_tool() at least once")
  else
    let s1 := flexEnsureCompiled s
    let prompt_text := pyReplace (s1.compiled_prompt.getD "") ("{user_input}") query
    .ok (flexibleLoop llm decode jsonLoads s1.response_format s1.tool_executor
      maxIterations prompt_text "" 0 [] maxIterations)

/-- One mutation/compile operation on the `BaseAgent` state, for stating the
compiled-prompt cache invariant over arbitrary operation interleavings. -/
inductive BaseOp where
  | addTool (name description : String) (function : ToolFn) (schema : Option Value)
  | removeTool (name : String)
  | compile

/-- Apply one operation. -/
def applyBaseOp (s : FlexibleAgentState) : BaseOp → FlexibleAgentState
  | .addTool n d f sch => flexAddTool s n d f sch
  | .removeTool n => (flexRemoveTool s n).1
  | .compile => flexEnsureCompiled s

/-- Apply a sequence of operations left to right. -/
def runBaseOps (s : FlexibleAgentState) (ops : List BaseOp) : FlexibleAgentState :=
  ops.foldl applyBaseOp s

/-- The cache-consistency invariant: whenever the compiled-prompt cache is
populated, it holds exactly the deterministic compilation of the current
state. -/
def promptCacheConsistent (s : FlexibleAgentState) : Prop :=
  ∀ t, s.compiled_prompt = some t → t = flexibleCompileText s

/-! ### Concrete fixtures

Concrete collaborators and agent states used to evaluate the definitions on
closed inputs.  The decoder and model stubs are constant functions, so facts
quantified over every prompt hold for them by computation. -/

/-- A `json.loads` stub that always fails (never reached by fixtures whose
parameters are not strings needing decoding). -/
def jlNone : String → Option Value := fun _ => none

/-- A model stub returning an empty reply (the decoder stubs below ignore the
raw reply text). -/
def llmEmpty : String → String := fun _ => ""

/-- A tool function returning the given string. -/
def retFn (r : String) : ToolFn := fun _ => .ok (.str r)

/-- A tool function that raises an exception with message "boom". -/
def boomFn : ToolFn := fun _ => .error ("boom")

/-- A tool function returning Python `None`. -/
def noneFn : ToolFn := fun _ => .ok .null

/-- A live-agent state with one registered tool named calc. -/
def agentCalc : ToolCallAgentState :=
  ⟨"P: {tool_list}\nq: {user_input}", [("calc", ⟨"does math", retFn ("42")⟩)], none⟩

/-- A decoder stub returning the same decoded object for every reply. -/
def decodeConst (l : List (String × Value)) :
    String → Except String (List (String × Value)) := fun _ => .ok l

/-- Every reply names tool calc and also carries a populated final answer. -/
def decodeBothRoles : String → Except String (List (String × Value)) :=
  decodeConst [("Tool call", .str ("calc")), ("Tool Parameters", .str ("None")),
    ("Final Response", .str ("hello"))]

/-- Every reply names a tool absent from every fixture registry. -/
def decodeGhost : String → Except String (List (String × Value)) :=
  decodeConst [("Tool call", .str ("ghost")), ("Tool Parameters", .str ("None")),
    ("Final Response", .str ("None"))]

/-- Every reply carries the "None" sentinel in all three fields. -/
def decodeAllNone : String → Except String (List (String × Value)) :=
  decodeConst [("Tool call", .str ("None")), ("Tool Parameters", .str ("None")),
    ("Final Response", .str ("None"))]

/-- Every reply decodes to an object missing the "Tool call" and
"Tool Parameters" required fields. -/
def decodeMissingTool : String → Except String (List (String × Value)) :=
  decodeConst [("Final Response", .str ("hi"))]

/-- Every reply names tool t with no parameters and the sentinel answer. -/
def decodeToolT : String → Except String (List (String × Value)) :=
  decodeConst [("Tool call", .str ("t")), ("Tool Parameters", .str ("None")),
    ("Final Response", .str ("None"))]

/-- The `ResponseFormat` of `TOOLCALL_AGENT_CONFIG` in `agent_config.py`. -/
def rfToolcall : ResponseFormat :=
  ⟨["Tool call", "Tool Parameters", "Final Response"],
   [("tool", "Tool call"), ("params", "Tool Parameters"),
    ("response", "Final Response")],
   [("Tool call", .str ("None")), ("Tool Parameters", .str ("None")),
    ("Final Response", .str ("None"))]⟩

/-- A tool executor whose tool t returns the given string. -/
def exWith (r : String) : ToolExecutor :=
  ⟨[("t", ⟨"demo tool", retFn r, none⟩)]⟩

/-- A flexible-agent state over the given executor, using the standard
toolcall response format. -/
def mkFlexState (ex : ToolExecutor) : FlexibleAgentState :=
  ⟨"P: {tool_list}\nq: {user_input}", "", [], rfToolcall, 10, ex, none⟩

/-- The C3 scenario hypothesis: a model collaborator that, for every prompt,
yields a parsed turn naming a populated, registered tool.  Stated over the
parse pipeline so that it constrains exactly what the loop consumes. -/
def alwaysRequestsTool (llm : String → String)
    (decode : String → Except String (List (String × Value)))
    (rf : ResponseFormat) (ex : ToolExecutor) : Prop :=
  ∀ s : String, ∃ (t : String) (L : List (String × Value)),
    flexibleParseResponse decode rf (llm s) = .ok L ∧
    dictGet? L ("tool") = some (.str t) ∧ t ≠ "None" ∧ t ≠ "" ∧
    (dictGet? ex.tools t).isSome = true

/-! ## Helper lemmas -/

/-- Replacing the entry of key `k` rewrites what `find?` for `k` returns,
provided some entry with key `k` exists. -/
theorem find?_replace_self {α : Type} (d : List (String × α)) (k : String)
    (v : α) (ha : d.any (fun p => p.1 == k) = true) :
    (d.map (fun p => if p.1 == k then (k, v) else p)).find?
      (fun p => p.1 == k) = some (k, v) := by
  induction d with
  | nil => simp at ha
  | cons p rest ih =>
    rw [List.map_cons]
    by_cases hp : p.1 = k
    · have h1 : (p.1 == k) = true := beq_iff_eq.mpr hp
      rw [if_pos h1, List.find?_cons_of_pos _ (by simp)]
    · have h1 : (p.1 == k) = false := beq_eq_false_iff_ne.mpr hp
      simp only [List.any_cons, h1, Bool.false_or] at ha
      rw [if_neg (by simp [h1]), List.find?_cons_of_neg _ (by simp [h1]), ih ha]

/-- Appending a fresh entry for key `k` makes `find?` for `k` return it,
provided no entry with key `k` existed. -/
theorem find?_append_self {α : Type} (d : List (String × α)) (k : String)
    (v : α) (ha : d.any (fun p => p.1 == k) = false) :
    (d ++ [(k, v)]).find? (fun p => p.1 == k) = some (k, v) := by
  induction d with
  | nil => rw [List.nil_append, List.find?_cons_of_pos _ (by simp)]
  | cons p rest ih =>
    simp only [List.any_cons, Bool.or_eq_false_iff] at ha
    rw [List.cons_append, List.find?_cons_of_neg _ (by simp [ha.1]), ih ha.2]

/-- Replacing the entry of key `k` leaves `find?` for any other key alone. -/
theorem find?_replace_ne {α : Type} (d : List (String × α)) (k m : String)
    (v : α) (h : m ≠ k) :
    (d.map (fun p => if p.1 == k then (k, v) else p)).find?
      (fun p => p.1 == m) = d.find? (fun p => p.1 == m) := by
  induction d with
  | nil => rfl
  | cons p rest ih =>
    rw [List.map_cons]
    by_cases hp : p.1 = k
    · have h1 : (p.1 == k) = true := beq_iff_eq.mpr hp
      have h2 : (p.1 == m) = false :=
        beq_eq_false_iff_ne.mpr (fun e => h (by rw [← e, hp]))
      have h3 : (k == m) = false :=
        beq_eq_false_iff_ne.mpr (fun e => h e.symm)
      rw [if_pos h1, List.find?_cons_of_neg _ (by simp [h3]),
        List.find?_cons_of_neg _ (by simp [h2]), ih]
    · have h1 : (p.1 == k) = false := beq_eq_false_iff_ne.mpr hp
      rw [if_neg (by simp [h1])]
      cases hm : p.1 == m
      · rw [List.find?_cons_of_neg _ (by simp [hm]),
          List.find?_cons_of_neg _ (by simp [hm]), ih]
      · rw [List.find?_cons_of_pos _ (by simp [hm]),
          List.find?_cons_of_pos _ (by simp [hm])]

/-- Appending a fresh entry for key `k` leaves `find?` for any other key
alone. -/
theorem find?_append_ne {α : Type} (d : List (String × α)) (k m : String)
    (v : α) (h : m ≠ k) :
    (d ++ [(k, v)]).find? (fun p => p.1 == m) = d.find? (fun p => p.1 == m) := by
  induction d with
  | nil =>
    have h3 : (k == m) = false := beq_eq_false_iff_ne.mpr (fun e => h e.symm)
    rw [List.nil_append, List.find?_cons_of_neg _ (by simp [h3])]
  | cons p rest ih =>
    rw [List.cons_append]
    cases hm : p.1 == m
    · rw [List.find?_cons_of_neg _ (by simp [hm]),
        List.find?_cons_of_neg _ (by simp [hm]), ih]
    · rw [List.find?_cons_of_pos _ (by simp [hm]),
        List.find?_cons_of_pos _ (by simp [hm])]

/-- Looking a key up right after assigning it yields the assigned value. -/
theorem dictGet?_dictSet_self {α : Type} (d : List (String × α)) (k : String)
    (v : α) : dictGet? (dictSet d k v) k = some v := by
  unfold dictSet dictGet?
  cases ha : d.any (fun p => p.1 == k)
  · rw [if_neg (by simp), find?_append_self d k v ha]
    rfl
  · rw [if_pos rfl, find?_replace_self d k v ha]
    rfl

/-- Assigning key `k` does not change the lookup of a different key `m`. -/
theorem dictGet?_dictSet_ne {α : Type} (d : List (String × α)) (k m : String)
    (v : α) (h : m ≠ k) : dictGet? (dictSet d k v) m = dictGet? d m := by
  unfold dictSet dictGet?
  cases ha : d.any (fun p => p.1 == k)
  · rw [if_neg (by simp), find?_append_ne d k m v h]
  · rw [if_pos rfl, find?_replace_ne d k m v h]

/-- A non-empty mapping is truthy and is not the "None" sentinel. -/
theorem not_falsy_dict_cons (k : String) (v : Value)
    (rest : List (String × Value)) :
    (!truthy (.dict ((k, v) :: rest)) || isNoneStr (.dict ((k, v) :: rest)))
      = false := by
  simp [truthy, isNoneStr]

/-- A non-empty set is truthy and is not the "None" sentinel. -/
theorem not_falsy_set_cons (e : Value) (rest : List Value) :
    (!truthy (.set (e :: rest)) || isNoneStr (.set (e :: rest))) = false := by
  simp [truthy, isNoneStr]

/-- A non-empty list is truthy and is not the "None" sentinel. -/
theorem not_falsy_list_cons (e : Value) (es : List Value) :
    (!truthy (.list (e :: es)) || isNoneStr (.list (e :: es))) = false := by
  simp [truthy, isNoneStr]

end Codemni

namespace Codemni

/-! ## Claim C6 -/

/-- Claim C6 counterexample: the live registry already holds tool t with
description first; registering t again with description second silently
replaces the stored descriptor instead of rejecting the call, so the
"duplicate names are rejected and the existing descriptor is unchanged"
behaviour does not hold. -/
theorem C6_counterexample :
    ((agentAddTool ⟨"tpl", [("t", ⟨"first", retFn ("f")⟩)], none⟩
        "t" "second" (retFn ("g"))).tools.map
      (fun p => (p.1, p.2.description))) = [("t", "second")] ∧
    ([("t", "second")] : List (String × String)) ≠ [("t", "first")] := by
  exact ⟨rfl, by decide⟩

/-- Claim C6 as amended: registration under an existing name silently
overwrites the stored descriptor (last-write-wins) in both registries — the
new description and function are what the registry afterwards yields for
that name — and no other name is affected; no error is ever raised. -/
theorem C6_last_write_wins :
    (∀ (a : ToolCallAgentState) (n d : String) (f : ToolFn),
      dictGet? (agentAddTool a n d f).tools n = some ⟨d, f⟩) ∧
    (∀ (a : ToolCallAgentState) (n m d : String) (f : ToolFn), m ≠ n →
      dictGet? (agentAddTool a n d f).tools m = dictGet? a.tools m) ∧
    (∀ (ex : ToolExecutor) (n d : String) (f : ToolFn) (sch : Option Value),
      dictGet? (registerTool ex n d f sch).tools n = some ⟨d, f, sch⟩) ∧
    (∀ (ex : ToolExecutor) (n m d : String) (f : ToolFn) (sch : Option Value),
      m ≠ n →
      dictGet? (registerTool ex n d f sch).tools m = dictGet? ex.tools m) := by
  refine ⟨?_, ?_, ?_, ?_⟩
  · intro a n d f
    exact dictGet?_dictSet_self a.tools n ⟨d, f⟩
  · intro a n m d f h
    exact dictGet?_dictSet_ne a.tools n m ⟨d, f⟩ h
  · intro ex n d f sch
    exact dictGet?_dictSet_self ex.tools n ⟨d, f, sch⟩
  · intro ex n m d f sch h
    exact dictGet?_dictSet_ne ex.tools n m ⟨d, f, sch⟩ h

/-- Witness for `C6_last_write_wins` at a concrete registry. -/
theorem C6_last_write_wins_witness :
    dictGet? (agentAddTool ⟨"tpl", [("t", ⟨"first", retFn ("f")⟩)], none⟩
      "t" "second" (retFn ("g"))).tools "t" = some ⟨"second", retFn ("g")⟩ ∧
    dictGet? (agentAddTool ⟨"tpl", [("t", ⟨"first", retFn ("f")⟩)], none⟩
      "t" "second" (retFn ("g"))).tools "u"
      = dictGet? [("t", ToolInfo.mk "first" (retFn ("f")))] "u" :=
  ⟨C6_last_write_wins.1 ⟨"tpl", [("t", ⟨"first", retFn ("f")⟩)], none⟩ "t"
      "second" (retFn ("g")),
   C6_last_write_wins.2.1 ⟨"tpl", [("t", ⟨"first", retFn ("f")⟩)], none⟩ "t"
      "u" "second" (retFn ("g")) (by decide)⟩

/-! ## Claim C10 -/

/-- Claim C10 (confirmed): when a mapping's first key contains no alphabetic
character, or a set has several elements, both binders build the positional
call from the first entry alone — the result is the same as if the dropped
entries had never been supplied, and no error is produced for them. -/
theorem C10_first_entry_only :
    (∀ (f : ToolFn) (k : String) (v : Value) (rest : List (String × Value)),
      pyAnyAlpha k = false →
      executeWithParams f (.dict ((k, v) :: rest))
        = executeWithParams f (.dict [(k, v)])) ∧
    (∀ (f : ToolFn) (e : Value) (rest : List Value),
      executeWithParams f (.set (e :: rest))
        = executeWithParams f (.set [e])) ∧
    (∀ (f : ToolFn) (k : String) (v : Value) (rest : List (String × Value)),
      pyAnyAlpha k = false →
      dispatchParams f (.dict ((k, v) :: rest))
        = dispatchParams f (.dict [(k, v)])) ∧
    (∀ (f : ToolFn) (e : Value) (rest : List Value),
      dispatchParams f (.set (e :: rest)) = dispatchParams f (.set [e])) := by
  refine ⟨?_, ?_, ?_, ?_⟩
  · intro f k v rest h
    simp [executeWithParams, h]
  · intro f e rest
    rfl
  · intro f k v rest h
    simp [dispatchParams, h]
  · intro f e rest
    rfl

/-- Witness for `C10_first_entry_only`: a two-entry digit-keyed mapping and a
two-element set are bound exactly as their one-entry restrictions. -/
theorem C10_first_entry_only_witness :
    executeWithParams (retFn ("r")) (.dict [("1", .str ("2,3")), ("7", .str ("zz"))])
      = executeWithParams (retFn ("r")) (.dict [("1", .str ("2,3"))]) ∧
    dispatchParams (retFn ("r")) (.set [.str ("2,3"), .str ("zz")])
      = dispatchParams (retFn ("r")) (.set [.str ("2,3")]) :=
  ⟨C10_first_entry_only.1 (retFn ("r")) "1" (.str ("2,3")) [("7", .str ("zz"))]
      (by decide),
   C10_first_entry_only.2.2.2 (retFn ("r")) (.str ("2,3")) [.str ("zz")]⟩

end Codemni


namespace Codemni

/-! ## Claim C4 -/

/-- Claim C4 counterexample: the live binder (`execute_tool` in `agent.py`)
has no branch for an ordered sequence — a list parameter yields the literal
"Unexpected parameter type" error instead of a positional call of the tool
function, so the claimed five-way dispatch does not hold for every tool
call. -/
theorem C4_counterexample :
    execute_tool jlNone (.str ("t")) (.list [.str ("x")])
        [("t", ⟨"d", retFn ("CALLED")⟩)]
      = .ok (.str ("Error: Unexpected parameter type")) ∧
    execute_tool jlNone (.str ("t")) (.list [.str ("x")])
        [("t", ⟨"d", retFn ("CALLED")⟩)]
      ≠ .ok (.str ("CALLED")) := by
  refine ⟨rfl, ?_⟩
  intro h
  rw [show execute_tool jlNone (.str ("t")) (.list [.str ("x")])
      [("t", ⟨"d", retFn ("CALLED")⟩)]
    = .ok (.str ("Error: Unexpected parameter type")) from rfl] at h
  injection h with h1
  injection h1 with h2
  exact absurd h2 (by decide)

/-- Claim C4 as amended: the five-way priority dispatch (zero-argument call
for absent/empty/"None" parameters, keyword call for alphabetic-keyed
mappings, comma-split positional call for non-alphabetic-keyed mappings and
for sets, element-wise positional call for lists, sole-positional call for
other scalars) is implemented by the `ToolExecutor` binder; the live agent
binder implements only the first three branches and reports "Unexpected
parameter type" for lists and other scalars. -/
theorem C4_binder_dispatch :
    (∀ (jl : String → Option Value) (ex : ToolExecutor) (name p : Value)
        (t : ExecutorTool), executorLookup ex name = some t →
      (!truthy p || isNoneStr p) = true →
      executorExecute jl ex name p
        = renderCall name t.function (.positional [])) ∧
    (∀ (jl : String → Option Value) (ex : ToolExecutor) (name : Value)
        (t : ExecutorTool) (k : String) (v : Value)
        (rest : List (String × Value)), executorLookup ex name = some t →
      (!k.isEmpty && pyAnyAlpha k) = true →
      executorExecute jl ex name (.dict ((k, v) :: rest))
        = renderCall name t.function (.keyword ((k, v) :: rest))) ∧
    (∀ (jl : String → Option Value) (ex : ToolExecutor) (name : Value)
        (t : ExecutorTool) (k : String) (v : Value)
        (rest : List (String × Value)), executorLookup ex name = some t →
      (!k.isEmpty && pyAnyAlpha k) = false →
      executorExecute jl ex name (.dict ((k, v) :: rest))
        = renderCall name t.function
            (.positional (splitCommaStrip (pyStr (if truthy v then v else .str k))))) ∧
    (∀ (jl : String → Option Value) (ex : ToolExecutor) (name : Value)
        (t : ExecutorTool) (e : Value) (rest : List Value),
      executorLookup ex name = some t →
      executorExecute jl ex name (.set (e :: rest))
        = renderCall name t.function (.positional (splitCommaStrip (pyStr e)))) ∧
    (∀ (jl : String → Option Value) (ex : ToolExecutor) (name : Value)
        (t : ExecutorTool) (e : Value) (es : List Value),
      executorLookup ex name = some t →
      executorExecute jl ex name (.list (e :: es))
        = renderCall name t.function (.positional (e :: es))) ∧
    (∀ (jl : String → Option Value) (ex : ToolExecutor) (name : Value)
        (t : ExecutorTool) (n : Int), executorLookup ex name = some t →
      n ≠ 0 →
      executorExecute jl ex name (.num n)
        = renderCall name t.function (.positional [.num n])) ∧
    (∀ (jl : String → Option Value) (name : Value)
        (tools : List (String × ToolInfo)) (info : ToolInfo) (e : Value)
        (es : List Value), toolLookup tools name = some info →
      execute_tool jl name (.list (e :: es)) tools
        = .ok (.str ("Error: Unexpected parameter type"))) := by
  refine ⟨?_, ?_, ?_, ?_, ?_, ?_, ?_⟩
  · intro jl ex name p t hl hc
    simp only [executorExecute, hl, hc, eq_self_iff_true, if_true, renderCall]
  · intro jl ex name t k v rest hl hc
    simp only [executorExecute, hl]
    simp only [not_falsy_dict_cons, Bool.false_eq_true, if_false]
    simp only [executeWithParams, hc, if_true, renderCall]
    cases t.function (.keyword ((k, v) :: rest)) <;> rfl
  · intro jl ex name t k v rest hl hc
    simp only [executorExecute, hl]
    simp only [not_falsy_dict_cons, Bool.false_eq_true, if_false]
    simp only [executeWithParams, hc, Bool.false_eq_true, if_false, renderCall]
    cases t.function
        (.positional (splitCommaStrip (pyStr (if truthy v then v else .str k))))
      <;> rfl
  · intro jl ex name t e rest hl
    simp only [executorExecute, hl]
    simp only [not_falsy_set_cons, Bool.false_eq_true, if_false]
    simp only [executeWithParams, renderCall]
    cases t.function (.positional (splitCommaStrip (pyStr e))) <;> rfl
  · intro jl ex name t e es hl
    simp only [executorExecute, hl]
    simp only [not_falsy_list_cons, Bool.false_eq_true, if_false]
    simp only [executeWithParams, renderCall]
    cases t.function (.positional (e :: es)) <;> rfl
  · intro jl ex name t n hl hn
    have ht : (!truthy (Value.num n) || isNoneStr (Value.num n)) = false := by
      simp [truthy, isNoneStr, hn]
    simp only [executorExecute, hl, ht, Bool.false_eq_true, if_false]
    simp only [executeWithParams, renderCall]
    cases t.function (.positional [Value.num n]) <;> rfl
  · intro jl name tools info e es hl
    simp only [execute_tool, hl]
    simp only [not_falsy_list_cons, Bool.false_eq_true, if_false]
    simp only [dispatchParams]

/-- Witness for `C4_binder_dispatch` at concrete calls: a named-argument
mapping is bound by keyword, and a list is bound element-wise positionally by
the executor binder. -/
theorem C4_binder_dispatch_witness :
    executorExecute jlNone (exWith ("r")) (.str ("t"))
        (.dict [("expression", .str ("2+2"))])
      = renderCall (.str ("t")) (retFn ("r"))
          (.keyword [("expression", .str ("2+2"))]) ∧
    executorExecute jlNone (exWith ("r")) (.str ("t"))
        (.list [.str ("x"), .str ("y")])
      = renderCall (.str ("t")) (retFn ("r"))
          (.positional [.str ("x"), .str ("y")]) :=
  ⟨C4_binder_dispatch.2.1 jlNone (exWith ("r")) (.str ("t"))
      ⟨"demo tool", retFn ("r"), none⟩ "expression" (.str ("2+2")) [] rfl
      (by decide),
   C4_binder_dispatch.2.2.2.2.1 jlNone (exWith ("r")) (.str ("t"))
      ⟨"demo tool", retFn ("r"), none⟩ (.str ("x")) [.str ("y")] rfl⟩

/-! ## Claim C5 -/

/-- Claim C5 counterexample: on the zero-argument path of the live binder the
tool call sits outside the `try` block, so an exception raised there
propagates raw out of `execute_tool` (and hence out of `invoke`); and a
`None` result from a tool is stringified to "None" by the executor binder,
not converted into an error mentioning the tool. -/
theorem C5_counterexample :
    execute_tool jlNone (.str ("t")) (.str ("None"))
        [("t", ⟨"d", boomFn⟩)] = .error ("boom") ∧
    executorExecute jlNone ⟨[("t", ⟨"d", noneFn, none⟩)]⟩ (.str ("t"))
        (.str ("None")) = "None" :=
  ⟨rfl, rfl⟩

/-- Claim C5 as amended: exceptions raised on the parameterised call paths
are converted by both binders into the "Error executing tool" text carrying
the tool name and exception message, and the `ToolExecutor` binder also
catches zero-argument exceptions; but the live agent binder returns the
zero-argument call raw — its result, exception included, escapes uncaught —
and a `None` result is stringified rather than treated as an error. -/
theorem C5_error_conversion :
    (∀ (jl : String → Option Value) (name : Value)
        (tools : List (String × ToolInfo)) (info : ToolInfo) (p : Value),
      toolLookup tools name = some info →
      (!truthy p || isNoneStr p) = true →
      execute_tool jl name p tools = info.function (.positional [])) ∧
    (∀ (jl : String → Option Value) (ex : ToolExecutor) (name : Value)
        (t : ExecutorTool) (p : Value) (e : String),
      executorLookup ex name = some t →
      (!truthy p || isNoneStr p) = true →
      t.function (.positional []) = .error e →
      executorExecute jl ex name p = toolErrorMsg name e) ∧
    (∀ (jl : String → Option Value) (name : Value)
        (tools : List (String × ToolInfo)) (info : ToolInfo) (k : String)
        (v : Value) (rest : List (String × Value)) (e : String),
      toolLookup tools name = some info →
      dispatchParams info.function (.dict ((k, v) :: rest)) = .error e →
      execute_tool jl name (.dict ((k, v) :: rest)) tools
        = .ok (.str (toolErrorMsg name e))) ∧
    (∀ (jl : String → Option Value) (ex : ToolExecutor) (name : Value)
        (t : ExecutorTool) (e : Value) (es : List Value) (msg : String),
      executorLookup ex name = some t →
      t.function (.positional (e :: es)) = .error msg →
      executorExecute jl ex name (.list (e :: es)) = toolErrorMsg name msg) ∧
    (∀ (jl : String → Option Value) (ex : ToolExecutor) (name : Value)
        (t : ExecutorTool) (p : Value), executorLookup ex name = some t →
      (!truthy p || isNoneStr p) = true →
      t.function (.positional []) = .ok .null →
      executorExecute jl ex name p = "None") := by
  refine ⟨?_, ?_, ?_, ?_, ?_⟩
  · intro jl name tools info p hl hc
    simp only [execute_tool, hl, hc, eq_self_iff_true, if_true]
  · intro jl ex name t p e hl hc hf
    simp only [executorExecute, hl, hc, eq_self_iff_true, if_true, hf]
  · intro jl name tools info k v rest e hl hd
    simp only [execute_tool, hl]
    simp only [not_falsy_dict_cons, Bool.false_eq_true, if_false]
    simp only [hd]
  · intro jl ex name t e es msg hl hf
    simp only [executorExecute, hl]
    simp only [not_falsy_list_cons, Bool.false_eq_true, if_false]
    simp only [executeWithParams, hf]
    rfl
  · intro jl ex name t p hl hc hf
    simp only [executorExecute, hl, hc, eq_self_iff_true, if_true, hf]
    rfl

/-- Witness for `C5_error_conversion`: a raising tool on the executor's
zero-argument path yields the converted message, and the live binder hands
back the zero-argument result unconverted. -/
theorem C5_error_conversion_witness :
    executorExecute jlNone ⟨[("t", ⟨"d", boomFn, none⟩)]⟩ (.str ("t"))
        (.str ("None")) = toolErrorMsg (.str ("t")) "boom" ∧
    execute_tool jlNone (.str ("t")) (.str ("None")) [("t", ⟨"d", boomFn⟩)]
      = boomFn (.positional []) :=
  ⟨C5_error_conversion.2.1 jlNone ⟨[("t", ⟨"d", boomFn, none⟩)]⟩ (.str ("t"))
      ⟨"d", boomFn, none⟩ (.str ("None")) "boom" rfl (by decide) rfl,
   C5_error_conversion.1 jlNone (.str ("t")) [("t", ⟨"d", boomFn⟩)]
      ⟨"d", boomFn⟩ (.str ("None")) rfl (by decide)⟩

end Codemni

namespace Codemni

/-! ## Claim C1 -/

/-- Claim C1 counterexample: with a model whose every reply populates both
the tool role (calc) and the answer role (hello), `invoke` does not return
the answer — the tool is executed on each of the ten turns and the run ends
with the budget error — so the tool role, not the answer role, takes
precedence. -/
theorem C1_counterexample :
    agentInvoke llmEmpty decodeBothRoles jlNone agentCalc "q"
      = .ok ⟨.str maxIterAgentMsg, 10,
          List.replicate 10 (Value.str ("calc"), Value.str ("42"))⟩ ∧
    Value.str maxIterAgentMsg ≠ Value.str ("hello") ∧
    List.replicate 10 (Value.str ("calc"), Value.str ("42"))
      ≠ ([] : List (Value × Value)) := by
  refine ⟨rfl, ?_, ?_⟩
  · intro h
    injection h with h1
    exact absurd h1 (by decide)
  · intro h
    exact absurd (congrArg List.length h) (by decide)

/-- Claim C1 as amended: the tool role takes precedence over the answer
role.  On any turn whose parsed tool is populated (neither the "None"
sentinel nor falsy) the loop executes the tool and continues, regardless of
the answer field; the answer is returned exactly on a turn whose tool role
is the sentinel or falsy. -/
theorem C1_tool_precedence :
    (∀ (llm : String → String)
        (decode : String → Except String (List (String × Value)))
        (jl : String → Option Value) (tools : List (String × ToolInfo))
        (prompt scratchpad : String) (calls : Nat)
        (runs : List (Value × Value)) (fuel : Nat) (tc tp fr r : Value),
      parse_agent_response decode (llm (fullPromptOf prompt scratchpad))
        = .ok (tc, tp, fr) →
      (isNoneStr tc || !truthy tc) = false →
      execute_tool jl tc tp tools = .ok r →
      agentLoop llm decode jl tools prompt scratchpad calls runs (fuel + 1)
        = agentLoop llm decode jl tools prompt
            (scratchpad ++ agentScratchEntry tc r) (calls + 1)
            (runs ++ [(tc, r)]) fuel) ∧
    (∀ (llm : String → String)
        (decode : String → Except String (List (String × Value)))
        (jl : String → Option Value) (tools : List (String × ToolInfo))
        (prompt scratchpad : String) (calls : Nat)
        (runs : List (Value × Value)) (fuel : Nat) (tc tp fr : Value),
      parse_agent_response decode (llm (fullPromptOf prompt scratchpad))
        = .ok (tc, tp, fr) →
      (isNoneStr tc || !truthy tc) = true →
      agentLoop llm decode jl tools prompt scratchpad calls runs (fuel + 1)
        = .ok ⟨fr, calls + 1, runs⟩) := by
  constructor
  · intro llm decode jl tools prompt scratchpad calls runs fuel tc tp fr r
      hp hc hex
    simp only [agentLoop, hp, hc, Bool.false_eq_true, if_false, hex]
  · intro llm decode jl tools prompt scratchpad calls runs fuel tc tp fr
      hp hc
    simp only [agentLoop, hp, hc, if_true]

/-- Witness for `C1_tool_precedence` at the concrete two-role model: the
first turn executes calc and appends its transcript entry. -/
theorem C1_tool_precedence_witness :
    agentLoop llmEmpty decodeBothRoles jlNone agentCalc.tools "P" "" 0 [] 3
      = agentLoop llmEmpty decodeBothRoles jlNone agentCalc.tools "P"
          ("" ++ agentScratchEntry (.str ("calc")) (.str ("42"))) 1
          ([] ++ [(.str ("calc"), .str ("42"))]) 2 :=
  C1_tool_precedence.1 llmEmpty decodeBothRoles jlNone agentCalc.tools "P" ""
    0 [] 2 (.str ("calc")) (.str ("None")) (.str ("hello")) (.str ("42"))
    rfl (by decide) rfl

/-! ## Claim C2 -/

/-- Claim C2 counterexample: the model names the unregistered tool ghost on
every turn; `invoke` does not abort on the first such turn — it records the
not-found message as the tool result and performs all ten model round-trips
before ending with the budget error. -/
theorem C2_counterexample :
    agentInvoke llmEmpty decodeGhost jlNone agentCalc "q"
      = .ok ⟨.str maxIterAgentMsg, 10,
          List.replicate 10
            (Value.str ("ghost"), Value.str (toolNotFoundMsg (.str ("ghost"))))⟩ ∧
    (10 : Nat) ≠ 1 :=
  ⟨rfl, by decide⟩

/-- Claim C2 as amended: when the parsed turn names a tool absent from the
registry, `execute_tool` calls no tool function and returns the "not found"
message naming that tool as an ordinary textual result, which the loop
appends to the transcript before continuing with another model round-trip
(the call is not aborted). -/
theorem C2_unknown_tool_continues :
    (∀ (jl : String → Option Value) (name p : Value)
        (tools : List (String × ToolInfo)), toolLookup tools name = none →
      execute_tool jl name p tools = .ok (.str (toolNotFoundMsg name))) ∧
    (∀ (llm : String → String)
        (decode : String → Except String (List (String × Value)))
        (jl : String → Option Value) (tools : List (String × ToolInfo))
        (prompt scratchpad : String) (calls : Nat)
        (runs : List (Value × Value)) (fuel : Nat) (tc tp fr : Value),
      parse_agent_response decode (llm (fullPromptOf prompt scratchpad))
        = .ok (tc, tp, fr) →
      (isNoneStr tc || !truthy tc) = false →
      toolLookup tools tc = none →
      agentLoop llm decode jl tools prompt scratchpad calls runs (fuel + 1)
        = agentLoop llm decode jl tools prompt
            (scratchpad ++ agentScratchEntry tc (.str (toolNotFoundMsg tc)))
            (calls + 1) (runs ++ [(tc, .str (toolNotFoundMsg tc))]) fuel) := by
  constructor
  · intro jl name p tools hl
    simp only [execute_tool, hl]
  · intro llm decode jl tools prompt scratchpad calls runs fuel tc tp fr
      hp hc hl
    simp only [agentLoop, hp, hc, Bool.false_eq_true, if_false,
      execute_tool, hl]

/-- Witness for `C2_unknown_tool_continues`: the ghost turn records the
not-found message and the loop recurses. -/
theorem C2_unknown_tool_continues_witness :
    execute_tool jlNone (.str ("ghost")) (.str ("None")) agentCalc.tools
      = .ok (.str (toolNotFoundMsg (.str ("ghost")))) ∧
    agentLoop llmEmpty decodeGhost jlNone agentCalc.tools "P" "" 0 [] 3
      = agentLoop llmEmpty decodeGhost jlNone agentCalc.tools "P"
          ("" ++ agentScratchEntry (.str ("ghost"))
            (.str (toolNotFoundMsg (.str ("ghost"))))) 1
          ([] ++ [(.str ("ghost"), .str (toolNotFoundMsg (.str ("ghost"))))]) 2 :=
  ⟨C2_unknown_tool_continues.1 jlNone (.str ("ghost")) (.str ("None"))
      agentCalc.tools rfl,
   C2_unknown_tool_continues.2 llmEmpty decodeGhost jlNone agentCalc.tools
      "P" "" 0 [] 2 (.str ("ghost")) (.str ("None")) (.str ("None")) rfl
      (by decide) rfl⟩

/-! ## Claim C9 -/

/-- Claim C9 counterexample: a turn whose tool and answer are both the
"None" sentinel makes the live `invoke` return the literal string "None" as
its final answer. -/
theorem C9_counterexample :
    agentInvoke llmEmpty decodeAllNone jlNone agentCalc "q"
      = .ok ⟨.str ("None"), 1, []⟩ ∧
    isNoneStr (.str ("None")) = true :=
  ⟨rfl, rfl⟩

end Codemni

namespace Codemni

/-- A string whose length is not 4 is not the "None" sentinel. -/
theorem ne_none_of_length (s : String) (h : s.length ≠ 4) :
    isNoneStr (.str s) = false := by
  have hne : s ≠ "None" := fun e => h (by rw [e]; rfl)
  simp only [isNoneStr]
  exact beq_eq_false_iff_ne.mpr hne

/-- A parse-error result string is never the sentinel. -/
theorem isNoneStr_parseErrorMsg (e : String) :
    isNoneStr (.str (parseErrorMsg e)) = false := by
  apply ne_none_of_length
  rw [parseErrorMsg, String.length_append]
  have h24 : ("Error parsing response: " : String).length = 24 := by decide
  rw [h24]
  omega

/-- The flexible budget message is never the sentinel. -/
theorem isNoneStr_maxIterationsMsg (n : Nat) :
    isNoneStr (.str (maxIterationsMsg n)) = false := by
  apply ne_none_of_length
  rw [maxIterationsMsg, String.length_append, String.length_append]
  have h27 : ("Error: Maximum iterations (" : String).length = 27 := by decide
  have h8 : (") reached" : String).length = 9 := by decide
  rw [h27, h8]
  omega

/-- Claim C9 as amended: the `FlexibleAgent` loop never returns the literal
"None" sentinel — on a sentinel-tool turn it returns the answer only when
that answer is truthy and not the sentinel, substituting "No response
provided" otherwise, and its error outcomes are never the sentinel either.
The live `ToolCallAgent` instead returns the answer field verbatim,
sentinel included (see the counterexample). -/
theorem C9_no_sentinel_result :
    ∀ (llm : String → String)
      (decode : String → Except String (List (String × Value)))
      (jl : String → Option Value) (rf : ResponseFormat) (ex : ToolExecutor)
      (maxIter : Nat) (prompt_text scratchpad : String) (calls : Nat)
      (runs : List (Value × String)) (fuel : Nat),
      isNoneStr (flexibleLoop llm decode jl rf ex maxIter prompt_text
        scratchpad calls runs fuel).result = false := by
  intro llm decode jl rf ex maxIter prompt_text scratchpad calls runs fuel
  induction fuel generalizing scratchpad calls runs with
  | zero => exact isNoneStr_maxIterationsMsg maxIter
  | succ fuel ih =>
    simp only [flexibleLoop]
    split
    · exact isNoneStr_parseErrorMsg _
    · split
      · split
        · next h =>
          have h2 := (Bool.and_eq_true _ _).mp h
          simpa using h2.2
        · exact rfl
      · exact ih _ _ _

end Codemni

namespace Codemni

/-! ## Claim C7 -/

/-- Claim C7 counterexample: the live parser performs no required-field
validation — a reply missing "Tool call" and "Tool Parameters" is filled
with the "None" sentinel and `invoke` proceeds, returning the defaulted
turn's answer instead of aborting with a missing-fields error. -/
theorem C7_counterexample :
    agentInvoke llmEmpty decodeMissingTool jlNone agentCalc "q"
      = .ok ⟨.str ("hi"), 1, []⟩ ∧
    dictGet? [("Final Response", Value.str ("hi"))] "Tool call" = none :=
  ⟨rfl, rfl⟩

/-- Claim C7 as amended: the validated parser used by the flexible agent
(`ResponseParser.parse_json_response`) raises the "Missing required keys"
error listing every absent required field, and the flexible loop aborts that
turn with the parse error, executing no tool and adding no transcript
entry; the live agent's parser instead substitutes the "None" sentinel for
each missing field and proceeds. -/
theorem C7_missing_fields :
    (∀ (decode : String → Except String (List (String × Value)))
        (response : String) (rk : List String)
        (parsed : List (String × Value)), decode response = .ok parsed →
      rk.filter (fun k => !(parsed.any (fun p => p.1 == k))) ≠ [] →
      parse_json_response decode response rk
        = .error (missingKeysMsg
            (rk.filter (fun k => !(parsed.any (fun p => p.1 == k)))))) ∧
    (∀ (llm : String → String)
        (decode : String → Except String (List (String × Value)))
        (jl : String → Option Value) (rf : ResponseFormat)
        (ex : ToolExecutor) (maxIter : Nat) (prompt_text scratchpad : String)
        (calls : Nat) (runs : List (Value × String)) (fuel : Nat) (e : String),
      flexibleParseResponse decode rf (llm (fullPromptOf prompt_text scratchpad))
        = .error e →
      flexibleLoop llm decode jl rf ex maxIter prompt_text scratchpad calls
          runs (fuel + 1)
        = ⟨.str (parseErrorMsg e), calls + 1, runs⟩) ∧
    (∀ (decode : String → Except String (List (String × Value)))
        (response : String) (parsed : List (String × Value)),
      decode response = .ok parsed →
      parse_agent_response decode response
        = .ok (dictGetD parsed ("Tool call") (.str ("None")),
               dictGetD parsed ("Tool Parameters") (.str ("None")),
               dictGetD parsed ("Final Response") (.str ("None")))) := by
  refine ⟨?_, ?_, ?_⟩
  · intro decode response rk parsed hd hm
    simp only [parse_json_response, hd]
    have h1 : rk.isEmpty = false := by
      cases hrk : rk
      · rw [hrk] at hm
        simp at hm
      · rfl
    have h2 : (rk.filter (fun k => !(parsed.any (fun p => p.1 == k)))).isEmpty
        = false := by
      cases hf : rk.filter (fun k => !(parsed.any (fun p => p.1 == k)))
      · exact absurd hf hm
      · rfl
    rw [if_pos (by simp [h1, h2])]
  · intro llm decode jl rf ex maxIter prompt_text scratchpad calls runs fuel
      e hp
    simp only [flexibleLoop, hp]
  · intro decode response parsed hd
    simp only [parse_agent_response, hd]

/-- Witness for `C7_missing_fields` at the concrete under-populated reply:
validation lists the two absent required fields, while the live parser
defaults them. -/
theorem C7_missing_fields_witness :
    parse_json_response decodeMissingTool "x"
        ["Tool call", "Tool Parameters", "Final Response"]
      = .error (missingKeysMsg
          ((["Tool call", "Tool Parameters", "Final Response"]).filter
            (fun k =>
              !(([("Final Response", Value.str ("hi"))]).any
                (fun p => p.1 == k))))) ∧
    parse_agent_response decodeMissingTool "x"
      = .ok (dictGetD [("Final Response", Value.str ("hi"))] ("Tool call")
               (.str ("None")),
             dictGetD [("Final Response", Value.str ("hi"))] ("Tool Parameters")
               (.str ("None")),
             dictGetD [("Final Response", Value.str ("hi"))] ("Final Response")
               (.str ("None"))) :=
  ⟨C7_missing_fields.1 decodeMissingTool "x"
      ["Tool call", "Tool Parameters", "Final Response"]
      [("Final Response", Value.str ("hi"))] rfl (by decide),
   C7_missing_fields.2.2 decodeMissingTool "x"
      [("Final Response", Value.str ("hi"))] rfl⟩

end Codemni

namespace Codemni

/-! ## Claim C3 -/

/-- The lazy compile step does not touch the tool executor. -/
theorem flexEnsureCompiled_tool_executor (s : FlexibleAgentState) :
    (flexEnsureCompiled s).tool_executor = s.tool_executor := by
  unfold flexEnsureCompiled
  by_cases hc : s.compiled_prompt.isNone = true
  · rw [if_pos hc]
  · rw [if_neg hc]

/-- The lazy compile step does not touch the response format. -/
theorem flexEnsureCompiled_response_format (s : FlexibleAgentState) :
    (flexEnsureCompiled s).response_format = s.response_format := by
  unfold flexEnsureCompiled
  by_cases hc : s.compiled_prompt.isNone = true
  · rw [if_pos hc]
  · rw [if_neg hc]

/-- Under a model that always requests a registered tool, the flexible loop
spends its whole fuel, performs one model round-trip and records one tool
execution per unit of fuel, and ends in the budget message. -/
theorem flexibleLoop_always_tool (llm : String → String)
    (decode : String → Except String (List (String × Value)))
    (jl : String → Option Value) (rf : ResponseFormat) (ex : ToolExecutor)
    (maxIter : Nat) (prompt_text : String)
    (H : alwaysRequestsTool llm decode rf ex) :
    ∀ (fuel : Nat) (scratchpad : String) (calls : Nat)
      (runs : List (Value × String)), ∃ tr : List (Value × String),
      flexibleLoop llm decode jl rf ex maxIter prompt_text scratchpad calls
          runs fuel
        = ⟨.str (maxIterationsMsg maxIter), calls + fuel, runs ++ tr⟩ ∧
      tr.length = fuel := by
  intro fuel
  induction fuel with
  | zero =>
    intro scratchpad calls runs
    exact ⟨[], by simp [flexibleLoop], rfl⟩
  | succ fuel ih =>
    intro scratchpad calls runs
    obtain ⟨t, L, hp, htool, hnone, hne, _⟩ :=
      H (fullPromptOf prompt_text scratchpad)
    have htn : dictGetD L ("tool") (Value.str ("None")) = .str t := by
      unfold dictGetD
      rw [htool]
      rfl
    have h1 : isNoneStr (.str t) = false := by
      simp only [isNoneStr]
      exact beq_eq_false_iff_ne.mpr hnone
    have h2 : truthy (.str t) = true := by
      simp only [truthy, Bool.not_eq_eq_eq_not, Bool.not_true]
      cases hse : t.isEmpty
      · rfl
      · exact absurd ((String.isEmpty_iff t).mp hse) hne
    simp only [flexibleLoop, hp, htn, h1, isNull, h2, Bool.not_true,
      Bool.or_self, Bool.or_false, Bool.false_eq_true, if_false]
    obtain ⟨tr, hrec, hlen⟩ :=
      ih (scratchpad ++ flexScratchEntry (.str t)
            (executorExecute jl ex (.str t) (dictGetD L ("params")
              (Value.str ("None")))))
        (calls + 1)
        (runs ++ [(.str t, executorExecute jl ex (.str t)
          (dictGetD L ("params") (Value.str ("None"))))])
    refine ⟨(.str t, executorExecute jl ex (.str t)
        (dictGetD L ("params") (Value.str ("None")))) :: tr, ?_, ?_⟩
    · rw [hrec]
      congr 1
      · omega
      · simp
    · simp [hlen]

/-- Claim C3 as amended: with turn budget N and a model collaborator that
always requests a registered tool, `FlexibleAgent.invoke` never yields a
final answer — it performs exactly N model round-trips, records exactly N
tool executions, and aborts at the attempt of iteration N+1 with the
"Maximum iterations (N) reached" message; the N accumulated transcript
entries live in the scratchpad during the run but are not part of the
returned outcome, which is only that fixed message. -/
theorem C3_budget_outcome :
    ∀ (llm : String → String)
      (decode : String → Except String (List (String × Value)))
      (jl : String → Option Value) (s : FlexibleAgentState) (N : Nat)
      (query : String),
      alwaysRequestsTool llm decode s.response_format s.tool_executor →
      ∃ tr : List (Value × String),
        flexibleInvoke llm decode jl s N query
          = .ok ⟨.str (maxIterationsMsg N), N, tr⟩ ∧ tr.length = N := by
  intro llm decode jl s N query H
  obtain ⟨t, L, hp, htool, hnone, hne, hsome⟩ := H ""
  have htools : s.tool_executor.tools.isEmpty = false := by
    cases hT : s.tool_executor.tools
    · rw [hT] at hsome
      simp [dictGet?] at hsome
    · rfl
  obtain ⟨tr, heq, hlen⟩ :=
    flexibleLoop_always_tool llm decode jl s.response_format s.tool_executor
      N (pyReplace ((flexEnsureCompiled s).compiled_prompt.getD "")
        ("{user_input}") query) H N "" 0 []
  refine ⟨tr, ?_, hlen⟩
  simp only [flexibleInvoke]
  rw [if_neg (by simp [htools])]
  rw [flexEnsureCompiled_response_format, flexEnsureCompiled_tool_executor,
    heq]
  simp

/-- Witness for `C3_budget_outcome` with budget 2 and the constant tool-t
model: the run ends in "Maximum iterations (2) reached" with a two-entry
transcript. -/
theorem C3_budget_outcome_witness :
    ∃ tr : List (Value × String),
      flexibleInvoke llmEmpty decodeToolT jlNone (mkFlexState (exWith ("r1")))
          2 "q"
        = .ok ⟨.str (maxIterationsMsg 2), 2, tr⟩ ∧ tr.length = 2 :=
  C3_budget_outcome llmEmpty decodeToolT jlNone (mkFlexState (exWith ("r1")))
    2 "q"
    (fun _ => ⟨"t",
      [("tool", .str ("t")), ("params", .str ("None")),
       ("response", .str ("None"))],
      rfl, rfl, by decide, by decide, rfl⟩)

/-- Claim C3 counterexample: two budget-2 runs over tools whose results
differ (r1 vs r2) return byte-identical outcome values — the fixed budget
string with no transcript content — so the returned outcome cannot be
reporting the accumulated tool-call/result entries. -/
theorem C3_counterexample :
    flexibleInvoke llmEmpty decodeToolT jlNone (mkFlexState (exWith ("r1")))
        2 "q"
      = .ok ⟨.str (maxIterationsMsg 2), 2,
          [(Value.str ("t"), "r1"), (Value.str ("t"), "r1")]⟩ ∧
    flexibleInvoke llmEmpty decodeToolT jlNone (mkFlexState (exWith ("r2")))
        2 "q"
      = .ok ⟨.str (maxIterationsMsg 2), 2,
          [(Value.str ("t"), "r2"), (Value.str ("t"), "r2")]⟩ ∧
    ("r1" : String) ≠ "r2" :=
  ⟨rfl, rfl, by decide⟩

end Codemni

namespace Codemni

/-! ## Claim C8 -/

/-- Claim C8 counterexample: the live agent's `add_tool` does not invalidate
the compiled-prompt cache — after compiling and then adding tool b, the
cache still holds the compilation of the old one-tool registry, which
differs from the compilation of the current registry.  The cache/registry
consistency invariant therefore fails on the live agent. -/
theorem C8_counterexample :
    (agentAddTool (agentCompilePrompt agentCalc) "b" "db" (retFn ("g"))).compiled_prompt
      = some (agentCompileText agentCalc.prompt_template agentCalc.tools) ∧
    agentCompileText agentCalc.prompt_template agentCalc.tools
      ≠ agentCompileText
          (agentAddTool (agentCompilePrompt agentCalc) "b" "db"
            (retFn ("g"))).prompt_template
          (agentAddTool (agentCompilePrompt agentCalc) "b" "db"
            (retFn ("g"))).tools :=
  ⟨rfl, by decide⟩

/-- One `BaseAgent` operation preserves the cache-consistency invariant. -/
theorem applyBaseOp_cache_consistent (s : FlexibleAgentState) (op : BaseOp)
    (hs : promptCacheConsistent s) :
    promptCacheConsistent (applyBaseOp s op) := by
  cases op with
  | addTool n d f sch =>
    intro t ht
    simp [applyBaseOp, flexAddTool] at ht
  | removeTool n =>
    by_cases hin : (dictGet? s.tool_executor.tools n).isSome = true
    · have hrw : applyBaseOp s (.removeTool n)
          = { s with tool_executor := ⟨dictDel s.tool_executor.tools n⟩,
                     compiled_prompt := none } := by
        simp [applyBaseOp, flexRemoveTool, unregisterTool, hin]
      rw [hrw]
      intro t ht
      simp at ht
    · have hrw : applyBaseOp s (.removeTool n) = s := by
        simp [applyBaseOp, flexRemoveTool, unregisterTool, hin]
      rw [hrw]
      exact hs
  | compile =>
    by_cases hc : s.compiled_prompt.isNone = true
    · have hrw : applyBaseOp s .compile
          = { s with compiled_prompt := some (flexibleCompileText s) } := by
        simp [applyBaseOp, flexEnsureCompiled, hc]
      rw [hrw]
      intro t ht
      exact (Option.some.inj ht).symm
    · have hrw : applyBaseOp s .compile = s := by
        simp [applyBaseOp, flexEnsureCompiled, hc]
      rw [hrw]
      exact hs

/-- Claim C8 as amended: on the `BaseAgent` state the invariant holds —
every interleaving of register/unregister/compile operations keeps the
cache, when populated, equal to the deterministic compilation of the current
registry, because `add_tool`/`remove_tool` reset the cache — and compiling
twice without a mutation in between yields byte-identical text (for the live
agent as well).  The live agent's `add_tool`, however, performs no cache
invalidation, so its cache can go stale (see the counterexample). -/
theorem C8_cache_invariant :
    (∀ (ops : List BaseOp) (s0 : FlexibleAgentState),
      promptCacheConsistent s0 → promptCacheConsistent (runBaseOps s0 ops)) ∧
    (∀ s : FlexibleAgentState,
      (flexEnsureCompiled (flexEnsureCompiled s)).compiled_prompt
        = (flexEnsureCompiled s).compiled_prompt) ∧
    (∀ a : ToolCallAgentState,
      (agentCompilePrompt (agentCompilePrompt a)).compiled_prompt
        = (agentCompilePrompt a).compiled_prompt) := by
  refine ⟨?_, ?_, ?_⟩
  · intro ops
    induction ops with
    | nil => intro s0 h; exact h
    | cons op rest ih =>
      intro s0 h
      exact ih (applyBaseOp s0 op) (applyBaseOp_cache_consistent s0 op h)
  · intro s
    unfold flexEnsureCompiled
    by_cases hc : s.compiled_prompt.isNone = true
    · rw [if_pos hc]
      rfl
    · rw [if_neg hc, if_neg hc]
  · intro a
    rfl

/-- Witness for `C8_cache_invariant`: a concrete register/compile/unregister
interleaving starting from a fresh flexible agent keeps the cache consistent
with the live registry. -/
theorem C8_cache_invariant_witness :
    promptCacheConsistent (runBaseOps (mkFlexState ⟨[]⟩)
      [.addTool "a" "da" (retFn ("x")) none, .compile, .removeTool "a"]) :=
  C8_cache_invariant.1
    [.addTool "a" "da" (retFn ("x")) none, .compile, .removeTool "a"]
    (mkFlexState ⟨[]⟩) (fun _ ht => Option.noConfusion ht)

end Codemni
